import Mathlib

/-!
Verification of `pkg/kubectl/cmd/set/set_selector.go` (`kubectl set selector`).

The Go source is shallowly embedded: Go maps (`map[string]string`) become
association lists, in-place mutation becomes value-in/value-out functions
returning the updated value together with an optional error (mirroring Go's
multiple-assignment `t.Spec.Selector, err = copyOldSelector()`), and the
per-object visit of `RunSelector` becomes a function producing a trace of
external effects together with an optional error.
-/

namespace SetSelector

/-- Go `map[string]string`, embedded as an association list whose keys are
assumed distinct (the invariant of every Go map). -/
abbrev StrMap := List (String × String)

/-- The keys of a `StrMap`. -/
def mapKeys (m : StrMap) : List String := m.map Prod.fst

/-- A `StrMap` faithfully represents a Go map when its keys are distinct. -/
def NodupKeys (m : StrMap) : Prop := (mapKeys m).Nodup

instance (m : StrMap) : Decidable (NodupKeys m) := by
  unfold NodupKeys
  infer_instance

/-- Go `dst[label] = value`: overwrite the binding for `k` if present,
otherwise append it. -/
def mapInsert (m : StrMap) (k v : String) : StrMap :=
  if m.any (fun p => p.1 == k) then
    m.map (fun p => if p.1 == k then (k, v) else p)
  else
    m ++ [(k, v)]

/-- `metav1.LabelSelectorRequirement`: one set-based match expression. -/
structure LabelSelectorRequirement where
  key : String
  op : String
  values : List String
deriving DecidableEq, Repr

/-- `metav1.LabelSelector`. -/
structure LabelSelector where
  matchLabels : StrMap
  matchExpressions : List LabelSelectorRequirement
deriving DecidableEq, Repr

/-- `metav1.ObjectMeta`, restricted to the fields this workflow touches. -/
structure ObjectMeta where
  name : String
  nspace : String
  resourceVersion : String
  annots : StrMap
deriving DecidableEq, Repr

/-- `v1.ServicePort` (payload irrelevant to the selector workflow, kept to
state frame properties). -/
structure ServicePort where
  name : String
  port : Int
deriving DecidableEq, Repr

/-- `v1.ServiceSpec`.  `selector` is `Option StrMap` because a Go map can be
`nil` (and the source assigns `nil` to it on the error path of the multiple
assignment). -/
structure ServiceSpec where
  selector : Option StrMap
  ports : List ServicePort
  clusterIP : String
  svcType : String
deriving DecidableEq, Repr

/-- `v1.ServiceStatus` (opaque payload for frame statements). -/
structure ServiceStatus where
  loadBalancerIngress : List String
deriving DecidableEq, Repr

/-- `v1.Service`. -/
structure Service where
  metadata : ObjectMeta
  spec : ServiceSpec
  status : ServiceStatus
deriving DecidableEq, Repr

/-- Any `runtime.Object` that is not a `*v1.Service`: the `default` arm of the
type switch in `updateSelectorForObject` never inspects or touches it, so its
payload is opaque. -/
structure OtherObject where
  kind : String
  payload : List (String × String)
deriving DecidableEq, Repr

/-- A decoded `runtime.Object` as dispatched by the type switch. -/
inductive KObject
  | service : Service → KObject
  | other : OtherObject → KObject
deriving DecidableEq, Repr

/-- The errors `updateSelectorForObject` can produce. -/
inductive SetErr
  /-- `"match expression %v not supported on this object"`, carrying the
  offending expressions. -/
  | matchExpressionsNotSupported (exprs : List LabelSelectorRequirement)
  /-- `"setting a selector is only supported for Services"`. -/
  | selectorOnlyForServices
deriving DecidableEq, Repr

/-- The closure `copyOldSelector` inside `updateSelectorForObject`: rejects a
selector with match expressions, otherwise builds a fresh map holding every
entry of `selector.MatchLabels`. -/
def copyOldSelector (selector : LabelSelector) : Except SetErr StrMap :=
  if selector.matchExpressions.length > 0 then
    .error (.matchExpressionsNotSupported selector.matchExpressions)
  else
    .ok (selector.matchLabels.foldl (fun dst p => mapInsert dst p.1 p.2) [])

/-- The `*v1.Service` arm of the type switch: Go's
`t.Spec.Selector, err = copyOldSelector()` assigns both results, so on the
error path the selector is set to `nil`. -/
def applyToService (t : Service) (selector : LabelSelector) :
    Service × Option SetErr :=
  match copyOldSelector selector with
  | .ok dst => ({ t with spec := { t.spec with selector := some dst } }, none)
  | .error e => ({ t with spec := { t.spec with selector := none } }, some e)

/-- `updateSelectorForObject(obj runtime.Object, selector metav1.LabelSelector) error`,
returned together with the (possibly mutated) object since Go mutates in
place. -/
def updateSelectorForObject (obj : KObject) (selector : LabelSelector) :
    KObject × Option SetErr :=
  match obj with
  | .service t =>
      let r := applyToService t selector
      (.service r.1, r.2)
  | .other o => (.other o, some .selectorOnlyForServices)

/-! ### Patch computation (spec §4.3)

`CalculatePatch` and the strategic-merge-patch library are not part of the
source file under verification; they are modelled from the spec: the patch is
the minimal structural difference between the serialized pre- and
post-mutation forms, with map-typed fields replaced wholesale, and applying
the patch to the original serialized form reproduces the modified form. -/

/-- Modelled from the spec: the serialized (wire) form of a `Service` — one
structured document with one entry per field.  (The real encoder is the
internal-version JSON encoder, outside this source file.) -/
structure SDoc where
  name : String
  nspace : String
  resourceVersion : String
  annots : StrMap
  selector : Option StrMap
  ports : List ServicePort
  clusterIP : String
  svcType : String
  loadBalancerIngress : List String
deriving DecidableEq, Repr

/-- Modelled from the spec: serialization of a `Service` into its document. -/
def serializeService (t : Service) : SDoc :=
  { name := t.metadata.name
    nspace := t.metadata.nspace
    resourceVersion := t.metadata.resourceVersion
    annots := t.metadata.annots
    selector := t.spec.selector
    ports := t.spec.ports
    clusterIP := t.spec.clusterIP
    svcType := t.spec.svcType
    loadBalancerIngress := t.status.loadBalancerIngress }

/-- Render a `StrMap` deterministically. -/
def renderMap : StrMap → String
  | [] => ""
  | (k, v) :: rest => k ++ ":" ++ v ++ ";" ++ renderMap rest

/-- Render the port list deterministically. -/
def renderPorts : List ServicePort → String
  | [] => ""
  | p :: rest => p.name ++ "#" ++ toString p.port ++ ";" ++ renderPorts rest

/-- Modelled from the spec: the byte form of a serialized document — a
deterministic rendering, so equal documents give equal bytes. -/
def docBytes (d : SDoc) : String :=
  d.name ++ "|" ++ d.nspace ++ "|" ++ d.resourceVersion ++ "|" ++
  renderMap d.annots ++ "|" ++
  (match d.selector with
   | none => "null"
   | some m => renderMap m) ++ "|" ++
  renderPorts d.ports ++ "|" ++ d.clusterIP ++ "|" ++ d.svcType ++ "|" ++
  String.intercalate "," d.loadBalancerIngress

/-- Modelled from the spec: a strategic-merge patch document — for each field,
`none` means "unchanged, omitted from the patch" and `some x` means "replace
wholesale with `x`". -/
structure PatchDoc where
  name : Option String
  nspace : Option String
  resourceVersion : Option String
  annots : Option StrMap
  selector : Option (Option StrMap)
  ports : Option (List ServicePort)
  clusterIP : Option String
  svcType : Option String
  loadBalancerIngress : Option (List String)
deriving DecidableEq, Repr

/-- One field of the minimal two-way diff: omitted when unchanged, the new
value wholesale when changed. -/
def diffField {α : Type} [DecidableEq α] (old new : α) : Option α :=
  if old = new then none else some new

/-- Modelled from the spec: the minimal structural difference between two
serialized documents (map-typed fields replaced wholesale, not deep-merged). -/
def diffDoc (a b : SDoc) : PatchDoc :=
  { name := diffField a.name b.name
    nspace := diffField a.nspace b.nspace
    resourceVersion := diffField a.resourceVersion b.resourceVersion
    annots := diffField a.annots b.annots
    selector := diffField a.selector b.selector
    ports := diffField a.ports b.ports
    clusterIP := diffField a.clusterIP b.clusterIP
    svcType := diffField a.svcType b.svcType
    loadBalancerIngress := diffField a.loadBalancerIngress b.loadBalancerIngress }

/-- Modelled from the spec: applying a patch document to a serialized
document — every field present in the patch replaces the original's field. -/
def applyDoc (p : PatchDoc) (d : SDoc) : SDoc :=
  { name := p.name.getD d.name
    nspace := p.nspace.getD d.nspace
    resourceVersion := p.resourceVersion.getD d.resourceVersion
    annots := p.annots.getD d.annots
    selector := p.selector.getD d.selector
    ports := p.ports.getD d.ports
    clusterIP := p.clusterIP.getD d.clusterIP
    svcType := p.svcType.getD d.svcType
    loadBalancerIngress := p.loadBalancerIngress.getD d.loadBalancerIngress }

/-- The patch-calculation step of `RunSelector` for one Service (§4.3):
serialize the pre-mutation state, run `updateSelectorForObject`, and on
success diff the two serialized forms. -/
def computePatch (t : Service) (selector : LabelSelector) :
    Except SetErr PatchDoc :=
  let before := serializeService t
  let r := applyToService t selector
  match r.2 with
  | some e => .error e
  | none => .ok (diffDoc before (serializeService r.1))

/-! ### The per-object visit of `RunSelector` (spec §4.4) -/

/-- An external effect performed during one object's visit.  `remotePatch` is
`Helper.Patch`, `remoteReplace` is the audit follow-up's `Helper.Replace`
(carrying the object it sends), `refresh` is `info.Refresh`, and `print` is
the output sink receiving an object. -/
inductive Effect
  | remotePatch
  | remoteReplace (sent : KObject)
  | refresh (toObj : KObject)
  | print (obj : KObject)
deriving DecidableEq, Repr

/-- Is this effect an invocation of the output sink? -/
def Effect.isPrint : Effect → Bool
  | .print _ => true
  | _ => false

/-- Is this effect a remote call (patch or replace)? -/
def Effect.isRemote : Effect → Bool
  | .remotePatch => true
  | .remoteReplace _ => true
  | _ => false

/-- The errors one visit can return. -/
inductive RunErr
  /-- `patch.Err`: the patch calculation failed (here: the mutation failed). -/
  | patchCalcErr (e : SetErr)
  /-- `Helper.Patch` failed; surfaced verbatim. -/
  | remotePatchErr (msg : String)
  /-- `"changes to %s/%s can't be recorded: %v"`: the audit follow-up's
  `Helper.Replace` failed. -/
  | recordReplaceErr (msg : String)
deriving DecidableEq, Repr

/-- Outcomes of the external collaborators during one visit, all outside this
source file: the result of `Helper.Patch`, whether the object already carries
a change-cause annotation, the result of `cmdutil.RecordChangeCause`
(`none` = it errored, `some o` = the stamped object), and the result of
`Helper.Replace`. -/
structure RemoteEnv where
  patchResult : Except String KObject
  containsChangeCause : Bool
  recordResult : Option KObject
  replaceResult : Except String KObject
deriving Repr

/-- The visit function `RunSelector` passes to `r.Visit`, for one resolved
object: compute the patch (mutating the object), then either print locally
(local/dry-run) or patch remotely, optionally run the audit follow-up, refresh
and print.  Returns the trace of effects and the visit's error, mirroring the
Go control flow line by line. -/
def visitOne (localFlag dryrun record : Bool) (selector : LabelSelector)
    (env : RemoteEnv) (obj : KObject) : List Effect × Option RunErr :=
  let step := updateSelectorForObject obj selector
  match step.2 with
  | some e => ([], some (.patchCalcErr e))
  | none =>
    if localFlag || dryrun then
      ([.print step.1], none)
    else
      match env.patchResult with
      | .error msg => ([.remotePatch], some (.remotePatchErr msg))
      | .ok patched =>
        if record || env.containsChangeCause then
          match env.recordResult with
          | none =>
              ([.remotePatch, .refresh patched, .print patched], none)
          | some stamped =>
              match env.replaceResult with
              | .error msg =>
                  ([.remotePatch, .remoteReplace stamped],
                   some (.recordReplaceErr msg))
              | .ok replaced =>
                  ([.remotePatch, .remoteReplace stamped, .refresh replaced,
                    .print replaced], none)
        else
          ([.remotePatch, .refresh patched, .print patched], none)

/-! ### Argument handling: `getResourcesAndSelector`, `Validate`, `Complete` -/

/-- `getResourcesAndSelector(args)`: all but the last argument are resource
identifiers; the last argument is parsed as the selector.  The parser
(`metav1.ParseToLabelSelector`) lives outside this source file, so it is a
parameter. -/
def getResourcesAndSelector (parse : String → Except String LabelSelector)
    (args : List String) : List String × Option LabelSelector × Option String :=
  if h : args = [] then ([], none, none)
  else
    match parse (args.getLast h) with
    | .ok sel => (args.dropLast, some sel, none)
    | .error e => (args.dropLast, none, some e)

/-- Modelled from the spec: `cmdutil.IsFilenameSliceEmpty` (outside this
source file) — whether no filename targets were supplied. -/
def IsFilenameSliceEmpty (filenames : List String) : Bool := filenames.isEmpty

/-- `Validate()`: a configuration error when no resources and no filenames
were given, or when no selector was supplied. -/
def Validate (resources : List String) (filenames : List String)
    (selector : Option LabelSelector) : Except String Unit :=
  if resources.length < 1 && IsFilenameSliceEmpty filenames then
    .error "one or more resources must be specified as <resource> <name> or <resource>/<name>"
  else if selector.isNone then
    .error "one selector is required"
  else
    .ok ()

/-- `cmdutil.CheckErr` sequencing of the command's `Run`: `RunSelector` (the
visits) only runs when `Validate` succeeded. -/
def runIfValid (resources : List String) (filenames : List String)
    (selector : Option LabelSelector) (visitTrace : List Effect) :
    List Effect × Option String :=
  match Validate resources filenames selector with
  | .error e => ([], some e)
  | .ok _ => (visitTrace, none)

/-- The errors `Complete` can return. -/
inductive CompleteErr
  /-- An external collaborator (`f.DefaultNamespace`, `ToPrinter`) failed. -/
  | envErr (msg : String)
  /-- `getResourcesAndSelector`'s parse of the last argument failed. -/
  | parseErr (msg : String)
  /-- `resource.LocalResourceError`: `--local` with explicit resource
  arguments. -/
  | localResourceError
deriving DecidableEq, Repr

/-- Outcomes of the external collaborators `Complete` consults, all outside
this source file. -/
structure CompleteEnv where
  namespaceErr : Option String
  printerErr : Option String
  parse : String → Except String LabelSelector

/-- The fields of `SelectorOptions` that `Complete` fills in (those the later
steps read). -/
structure CompletedOptions where
  resources : List String
  selector : Option LabelSelector
deriving Repr

/-- `Complete(f, cmd, args)`: resolve the namespace, split the arguments into
resources and selector, and — when `--local` is set — fail with
`LocalResourceError` as soon as any explicit resource argument is present,
before any builder result is consumed.  Builder configuration itself performs
no work and is not modelled. -/
def Complete (env : CompleteEnv) (localFlag : Bool) (args : List String) :
    Except CompleteErr CompletedOptions :=
  match env.namespaceErr with
  | some e => .error (.envErr e)
  | none =>
    let r := getResourcesAndSelector env.parse args
    match r.2.2 with
    | some e => .error (.parseErr e)
    | none =>
      if localFlag && r.1.length > 0 then
        .error .localResourceError
      else
        match env.printerErr with
        | some e => .error (.envErr e)
        | none => .ok { resources := r.1, selector := r.2.1 }

/-! ### Concrete sample values (used to instantiate theorems) -/

/-- A concrete Service with a pre-existing selector. -/
def svcSample : Service :=
  { metadata := { name := "my-svc", nspace := "default",
                  resourceVersion := "7", annots := [] }
    spec := { selector := some [("env", "prod")]
              ports := [{ name := "http", port := 80 }]
              clusterIP := "10.0.0.1", svcType := "ClusterIP" }
    status := { loadBalancerIngress := [] } }

/-- A concrete non-Service object. -/
def otherSample : OtherObject :=
  { kind := "ReplicationController", payload := [("name", "rc1")] }

/-- A concrete equality-only selector (`env=qa`). -/
def selQA : LabelSelector :=
  { matchLabels := [("env", "qa")], matchExpressions := [] }

/-- A concrete set-based requirement (`env in (qa, prod)`). -/
def reqIn : LabelSelectorRequirement :=
  { key := "env", op := "In", values := ["qa", "prod"] }

/-- A concrete selector carrying a set-based expression alongside
`MatchLabels`. -/
def selExprSample : LabelSelector :=
  { matchLabels := [("env", "qa")], matchExpressions := [reqIn] }

/-- A concrete remote environment whose audit-record `Replace` fails. -/
def envReplaceFails : RemoteEnv :=
  { patchResult := .ok (.service svcSample)
    containsChangeCause := false
    recordResult := some (.service svcSample)
    replaceResult := .error "server rejected replace" }

/-- A concrete remote environment that is never consulted (local mode). -/
def envUnused : RemoteEnv :=
  { patchResult := .error "unused"
    containsChangeCause := false
    recordResult := none
    replaceResult := .error "unused" }

/-- A concrete `Complete` environment whose collaborators all succeed. -/
def envComplete : CompleteEnv :=
  { namespaceErr := none, printerErr := none, parse := fun _ => .ok selQA }

/-! ### Helper lemmas -/

/-- Folding `mapInsert` over a keys-distinct list, starting from an
accumulator disjoint from it, appends the list unchanged. -/
theorem foldl_mapInsert_append (m acc : StrMap)
    (h : NodupKeys (acc ++ m)) :
    m.foldl (fun dst p => mapInsert dst p.1 p.2) acc = acc ++ m := by
  induction m generalizing acc with
  | nil => simp
  | cons p rest ih =>
      obtain ⟨k, v⟩ := p
      have hk : ¬ acc.any (fun q => q.1 == k) = true := by
        intro hany
        rw [List.any_eq_true] at hany
        obtain ⟨q, hq, hqk⟩ := hany
        have hkmem : k ∈ mapKeys (acc ++ (k, v) :: rest) := by
          simp [mapKeys]
        have hqmem : q.1 ∈ mapKeys acc := List.mem_map_of_mem _ hq
        have hqk' : q.1 = k := by simpa using hqk
        have hnd := h
        unfold NodupKeys mapKeys at hnd
        rw [List.map_append, List.nodup_append] at hnd
        exact hnd.2.2 (hqk' ▸ hqmem) (by simp [mapKeys])
      have hins : mapInsert acc k v = acc ++ [(k, v)] := by
        unfold mapInsert
        simp only [hk, if_false]
        simp
      have hnd' : NodupKeys ((acc ++ [(k, v)]) ++ rest) := by
        unfold NodupKeys mapKeys at h ⊢
        simpa using h
      calc ((k, v) :: rest).foldl (fun dst p => mapInsert dst p.1 p.2) acc
          = rest.foldl (fun dst p => mapInsert dst p.1 p.2) (mapInsert acc k v) := rfl
        _ = rest.foldl (fun dst p => mapInsert dst p.1 p.2) (acc ++ [(k, v)]) := by
              rw [hins]
        _ = (acc ++ [(k, v)]) ++ rest := ih (acc ++ [(k, v)]) hnd'
        _ = acc ++ (k, v) :: rest := by simp

/-- The fresh copy built by `copyOldSelector` is the `MatchLabels` map itself
whenever its keys are distinct (always true of a Go map). -/
theorem copyOldSelector_eq (selector : LabelSelector)
    (hexpr : selector.matchExpressions = [])
    (hnd : NodupKeys selector.matchLabels) :
    copyOldSelector selector = .ok selector.matchLabels := by
  unfold copyOldSelector
  rw [hexpr]
  simp only [List.length_nil, gt_iff_lt, lt_self_iff_false, if_false]
  have := foldl_mapInsert_append selector.matchLabels [] (by simpa using hnd)
  simpa using this

/-- `diffField` followed by `getD` on the original recovers the new value. -/
theorem diffField_getD {α : Type} [DecidableEq α] (x y : α) :
    (diffField x y).getD x = y := by
  unfold diffField
  by_cases h : x = y <;> simp [h]

/-- Applying the minimal diff of `a` against `b` to `a` yields `b`. -/
theorem applyDoc_diffDoc (a b : SDoc) : applyDoc (diffDoc a b) a = b := by
  simp [applyDoc, diffDoc, diffField_getD]

/-- Splitting `getResourcesAndSelector` on a non-empty argument list: all but
the last argument become resources, the last is parsed. -/
theorem getResourcesAndSelector_concat
    (parse : String → Except String LabelSelector) (rs : List String)
    (lastArg : String) :
    getResourcesAndSelector parse (rs ++ [lastArg]) =
      (rs, match parse lastArg with
           | .ok s => (some s, none)
           | .error e => (none, some e)) := by
  unfold getResourcesAndSelector
  rw [dif_neg (by simp)]
  cases h : parse ((rs ++ [lastArg]).getLast (by simp)) <;>
    rw [List.getLast_concat] at h <;>
    simp [h, List.dropLast_concat]

/-! ### Claims -/

/-- C1: for every Service and every selector with no match expressions,
`updateSelectorForObject` succeeds and the Service's `Spec.Selector` becomes
exactly a fresh copy of the selector's `MatchLabels` map — the prior selector
is discarded entirely, whatever it was (total replacement, never a merge). -/
theorem c1_service_selector_total_replacement (t : Service)
    (sel : LabelSelector) (hexpr : sel.matchExpressions = [])
    (hnd : NodupKeys sel.matchLabels) :
    updateSelectorForObject (.service t) sel =
      (.service { t with spec := { t.spec with selector := some sel.matchLabels } },
       none) := by
  unfold updateSelectorForObject applyToService
  rw [copyOldSelector_eq sel hexpr hnd]

/-- Witness for C1: a Service whose old selector `{env: prod}` is replaced
wholesale by `{env: qa}`. -/
theorem c1_witness :
    selQA.matchExpressions = [] ∧ NodupKeys selQA.matchLabels ∧
    updateSelectorForObject (.service svcSample) selQA =
      (.service { svcSample with
                    spec := { svcSample.spec with
                                selector := some selQA.matchLabels } },
       none) :=
  ⟨rfl, by decide,
   c1_service_selector_total_replacement svcSample selQA rfl (by decide)⟩

/-- C2 counterexample: for a non-Service object and a selector with a
non-empty match-expression list, `updateSelectorForObject` does NOT fail with
the Unsupported-Selector-Form error identifying the offending expressions —
it fails with the Unsupported-Kind error instead. -/
theorem c2_counterexample :
    (updateSelectorForObject (.other otherSample) selExprSample).2 =
      some .selectorOnlyForServices ∧
    some SetErr.selectorOnlyForServices ≠
      some (SetErr.matchExpressionsNotSupported selExprSample.matchExpressions) := by
  constructor
  · rfl
  · decide

/-- C2 (amended): for every object and every selector with a non-empty
match-expression list, `updateSelectorForObject` fails; the failure is the
Unsupported-Selector-Form error identifying the offending expressions only
for the Service kind, while every other kind fails with the Unsupported-Kind
error (the kind dispatch fires before the expression check). -/
theorem c2_amended_matchExpressions_rejected (obj : KObject)
    (sel : LabelSelector) (h : sel.matchExpressions ≠ []) :
    ((updateSelectorForObject obj sel).2).isSome = true ∧
    (∀ t, obj = .service t →
      (updateSelectorForObject obj sel).2 =
        some (.matchExpressionsNotSupported sel.matchExpressions)) ∧
    (∀ o, obj = .other o →
      (updateSelectorForObject obj sel).2 = some .selectorOnlyForServices) := by
  have hlen : sel.matchExpressions.length > 0 :=
    List.length_pos.mpr h
  cases obj with
  | service t =>
      refine ⟨?_, ?_, ?_⟩
      · simp [updateSelectorForObject, applyToService, copyOldSelector, hlen]
      · intro t' _
        simp [updateSelectorForObject, applyToService, copyOldSelector, hlen]
      · intro o ho
        exact absurd ho (by simp)
  | other o =>
      refine ⟨rfl, ?_, ?_⟩
      · intro t ht
        exact absurd ht (by simp)
      · intro o' _
        rfl

/-- Witness for C2 (amended): a Service given a selector with the expression
`env in (qa, prod)` fails with the error carrying that expression. -/
theorem c2_amended_witness :
    selExprSample.matchExpressions ≠ [] ∧
    (updateSelectorForObject (.service svcSample) selExprSample).2 =
      some (.matchExpressionsNotSupported selExprSample.matchExpressions) :=
  ⟨by decide,
   (c2_amended_matchExpressions_rejected (.service svcSample) selExprSample
      (by decide)).2.1 svcSample rfl⟩

/-- C3: for every non-Service object and every selector, valid or not,
`updateSelectorForObject` fails immediately with the Unsupported-Kind error
("setting a selector is only supported for Services") and leaves the object
untouched. -/
theorem c3_unsupported_kind (o : OtherObject) (sel : LabelSelector) :
    updateSelectorForObject (.other o) sel =
      (.other o, some .selectorOnlyForServices) := rfl

/-- C4: applying the patch computed by the patch-calculation step to the
original (pre-mutation) serialized form of a Service reproduces, byte for
byte, the serialized form of the Service after mutation. -/
theorem c4_patch_round_trip (t : Service) (sel : LabelSelector)
    (hexpr : sel.matchExpressions = []) :
    ∃ p, computePatch t sel = .ok p ∧
      docBytes (applyDoc p (serializeService t)) =
        docBytes (serializeService (applyToService t sel).1) := by
  have hok : (applyToService t sel).2 = none := by
    unfold applyToService copyOldSelector
    rw [hexpr]
    simp
  refine ⟨diffDoc (serializeService t)
            (serializeService (applyToService t sel).1), ?_, ?_⟩
  · simp only [computePatch, hok]
  · rw [applyDoc_diffDoc]

/-- Witness for C4: the round trip at a concrete Service and selector. -/
theorem c4_witness :
    selQA.matchExpressions = [] ∧
    ∃ p, computePatch svcSample selQA = .ok p ∧
      docBytes (applyDoc p (serializeService svcSample)) =
        docBytes (serializeService (applyToService svcSample selQA).1) :=
  ⟨rfl, c4_patch_round_trip svcSample selQA rfl⟩

/-- C5: a successful mutation changes only `Spec.Selector` — metadata, the
other spec fields and the status of the Service are untouched — and a failing
call on an unsupported kind leaves the object entirely unchanged. -/
theorem c5_frame (t : Service) (o : OtherObject) (sel : LabelSelector) :
    (sel.matchExpressions = [] →
      ∃ m, updateSelectorForObject (.service t) sel =
        (.service { t with spec := { t.spec with selector := m } }, none)) ∧
    (updateSelectorForObject (.other o) sel).1 = .other o ∧
    ((updateSelectorForObject (.other o) sel).2).isSome = true := by
  refine ⟨?_, rfl, rfl⟩
  intro hexpr
  refine ⟨some (sel.matchLabels.foldl (fun dst p => mapInsert dst p.1 p.2) []), ?_⟩
  unfold updateSelectorForObject applyToService copyOldSelector
  rw [hexpr]
  simp

/-- Witness for C5: the frame property at a concrete Service, non-Service
object and selector. -/
theorem c5_witness :
    selQA.matchExpressions = [] ∧
    ((selQA.matchExpressions = [] →
      ∃ m, updateSelectorForObject (.service svcSample) selQA =
        (.service { svcSample with
                      spec := { svcSample.spec with selector := m } }, none)) ∧
    (updateSelectorForObject (.other otherSample) selQA).1 = .other otherSample ∧
    ((updateSelectorForObject (.other otherSample) selQA).2).isSome = true) :=
  ⟨rfl, c5_frame svcSample otherSample selQA⟩

/-- C6: in local or dry-run mode, when the patch computation succeeds, the
visit emits exactly one effect — printing the mutated in-memory object — with
no remote patch, no replace and no refresh, and the visit succeeds. -/
theorem c6_local_no_remote (localFlag dryrun record : Bool)
    (sel : LabelSelector) (env : RemoteEnv) (obj : KObject)
    (hmode : (localFlag || dryrun) = true)
    (hok : (updateSelectorForObject obj sel).2 = none) :
    visitOne localFlag dryrun record sel env obj =
      ([.print (updateSelectorForObject obj sel).1], none) := by
  simp [visitOne, hok, hmode]

/-- Witness for C6: local mode on a concrete Service prints the mutated
object and performs no remote call. -/
theorem c6_witness :
    ((true || false) = true) ∧
    (updateSelectorForObject (.service svcSample) selQA).2 = none ∧
    visitOne true false false selQA envUnused (.service svcSample) =
      ([.print (updateSelectorForObject (.service svcSample) selQA).1], none) :=
  ⟨rfl, by decide,
   c6_local_no_remote true false false selQA envUnused (.service svcSample)
     rfl (by decide)⟩

/-- C7 counterexample: with the record flag set and the audit follow-up's
replace step failing, the visit returns an error (it IS marked failed) and
the output sink is never invoked — contradicting the claim that the failure
is only a warning on an otherwise-successful result. -/
theorem c7_counterexample :
    ((visitOne false false true selQA envReplaceFails
        (.service svcSample)).2).isSome = true ∧
    ((visitOne false false true selQA envReplaceFails
        (.service svcSample)).1.all (fun e => !e.isPrint)) = true := by
  constructor
  · rfl
  · rfl

/-- C7 (amended): when the audit follow-up runs after a successful remote
patch and its replace step fails, the already-applied patch is not reverted
(the remote patch stands as the first effect and nothing further is sent),
but the visit returns the record-failure error — the object's visit IS marked
failed and the output sink is NOT invoked for it. -/
theorem c7_amended_record_failure (record : Bool) (sel : LabelSelector)
    (env : RemoteEnv) (obj : KObject) (patched stamped : KObject)
    (msg : String)
    (hok : (updateSelectorForObject obj sel).2 = none)
    (hpatch : env.patchResult = .ok patched)
    (hrec : (record || env.containsChangeCause) = true)
    (hrecord : env.recordResult = some stamped)
    (hreplace : env.replaceResult = .error msg) :
    visitOne false false record sel env obj =
      ([.remotePatch, .remoteReplace stamped],
       some (.recordReplaceErr msg)) := by
  simp [visitOne, hok, hpatch, hrec, hrecord, hreplace]

/-- Witness for C7 (amended): the concrete failing-replace environment. -/
theorem c7_amended_witness :
    (updateSelectorForObject (.service svcSample) selQA).2 = none ∧
    envReplaceFails.patchResult = .ok (.service svcSample) ∧
    ((true || envReplaceFails.containsChangeCause) = true) ∧
    envReplaceFails.recordResult = some (.service svcSample) ∧
    envReplaceFails.replaceResult = .error "server rejected replace" ∧
    visitOne false false true selQA envReplaceFails (.service svcSample) =
      ([.remotePatch, .remoteReplace (.service svcSample)],
       some (.recordReplaceErr "server rejected replace")) :=
  ⟨by decide, rfl, rfl, rfl, rfl,
   c7_amended_record_failure true selQA envReplaceFails (.service svcSample)
     (.service svcSample) (.service svcSample) "server rejected replace"
     (by decide) rfl rfl rfl rfl⟩

/-- C8: `Validate` fails exactly when no targets were specified (both the
resource list and the filename list are empty) or no selector was supplied;
it succeeds whenever a target and a selector are present; and under the
command's `CheckErr` sequencing, a `Validate` failure means no visit runs. -/
theorem c8_validate_iff (resources filenames : List String)
    (sel : Option LabelSelector) (visitTrace : List Effect) :
    ((∃ e, Validate resources filenames sel = .error e) ↔
      ((resources = [] ∧ filenames = []) ∨ sel = none)) ∧
    ((Validate resources filenames sel = .ok ()) ↔
      (¬(resources = [] ∧ filenames = []) ∧ sel ≠ none)) ∧
    (∀ e, Validate resources filenames sel = .error e →
      runIfValid resources filenames sel visitTrace = ([], some e)) := by
  refine ⟨?_, ?_, ?_⟩
  · by_cases h1 : resources = [] <;> by_cases h2 : filenames = [] <;>
      cases sel <;>
      simp [Validate, IsFilenameSliceEmpty, h1, h2, Nat.lt_one_iff,
            List.length_eq_zero, List.isEmpty_iff]
  · by_cases h1 : resources = [] <;> by_cases h2 : filenames = [] <;>
      cases sel <;>
      simp [Validate, IsFilenameSliceEmpty, h1, h2, Nat.lt_one_iff,
            List.length_eq_zero, List.isEmpty_iff]
  · intro e he
    simp [runIfValid, he]

/-- Witness for C8: no targets fails, a target plus selector succeeds, and
the failing configuration produces no visit effects. -/
theorem c8_witness :
    (∃ e, Validate [] [] (some selQA) = .error e) ∧
    Validate ["services/my-svc"] [] (some selQA) = .ok () ∧
    runIfValid [] [] (some selQA) [.remotePatch] = ([], some
      "one or more resources must be specified as <resource> <name> or <resource>/<name>") :=
  ⟨(c8_validate_iff [] [] (some selQA) []).1.mpr (Or.inl ⟨rfl, rfl⟩),
   (c8_validate_iff ["services/my-svc"] [] (some selQA) []).2.1.mpr
     (by simp),
   (c8_validate_iff [] [] (some selQA) [.remotePatch]).2.2 _ rfl⟩

/-- C9: `getResourcesAndSelector` returns empty resources, no selector and no
error on zero arguments; on `n ≥ 1` arguments it returns the first `n - 1`
arguments as resources and the parse of the last argument as the selector,
failing exactly when that parse fails. -/
theorem c9_split (parse : String → Except String LabelSelector) :
    getResourcesAndSelector parse [] = ([], none, none) ∧
    ∀ rs lastArg, getResourcesAndSelector parse (rs ++ [lastArg]) =
      (rs, match parse lastArg with
           | .ok s => (some s, none)
           | .error e => (none, some e)) :=
  ⟨rfl, fun rs lastArg => getResourcesAndSelector_concat parse rs lastArg⟩

/-- C10: under `--local`, any explicit resource argument besides the trailing
selector expression makes `Complete` fail with `LocalResourceError` (given
that the namespace collaborator and the selector parse succeed), so no object
is ever resolved, patched or printed. -/
theorem c10_local_resource_error (env : CompleteEnv) (rs : List String)
    (lastArg : String) (hrs : rs ≠ [])
    (hns : env.namespaceErr = none)
    (hparse : ∃ s, env.parse lastArg = .ok s) :
    Complete env true (rs ++ [lastArg]) = .error .localResourceError := by
  obtain ⟨s, hs⟩ := hparse
  unfold Complete
  rw [hns]
  rw [getResourcesAndSelector_concat env.parse rs lastArg]
  rw [hs]
  have hlen : rs.length > 0 := List.length_pos.mpr hrs
  simp [hlen]

/-- Witness for C10: `--local` with one explicit resource argument fails with
`LocalResourceError`. -/
theorem c10_witness :
    (["services/my-svc"] : List String) ≠ [] ∧
    envComplete.namespaceErr = none ∧
    envComplete.parse "env=qa" = .ok selQA ∧
    Complete envComplete true (["services/my-svc"] ++ ["env=qa"]) =
      .error .localResourceError :=
  ⟨by decide, rfl, rfl,
   c10_local_resource_error envComplete ["services/my-svc"] "env=qa"
     (by decide) rfl ⟨selQA, rfl⟩⟩

end SetSelector
